import Mathlib

/-!
Shallow embedding of the taskmasterpro server store (`MemStorage`), its HTTP
route handlers (`registerRoutes`), and the daily-planner drag-and-drop
coordinator (`handleDragEnd` in the DailyPlanner pages), together with proofs
of the frozen specification claims.

Conventions of the embedding:
* A JavaScript `Map<number, T>` is an association list in insertion order
  (`JsMap`); `Map.set` replaces in place when the key exists and appends
  otherwise, `Map.delete` removes the entry and reports whether it existed,
  `Map.values()` is the list of values in insertion order.
* `number` ids are `Nat`; other integer columns are `Int`; `decimal` columns
  are strings, as drizzle presents them; `Date` timestamps are an abstract
  `Nat` clock value passed to the creates that call `new Date()`.
* A nullable column of select type `T | null` is `Option T`.  An insert-schema
  field of type `T | null | undefined` is also `Option T`: the stores apply
  `?? null` on creation, which collapses `null` and `undefined`, so nothing
  observable distinguishes them.  In a PUT patch the distinction between an
  absent field and an explicit `null` matters for the spread-merge, so patch
  fields are `Option` (presence in the body) of the select type.
-/

namespace TaskMaster

/-! ### JavaScript `Map` model -/

/-- A JS `Map<number, α>`: entries in insertion order, keyed by `Nat`. -/
abbrev JsMap (α : Type) := List (Nat × α)

/-- `m.get(k)`: value of the (unique) entry with key `k`. -/
def mapGet : JsMap α → Nat → Option α
  | [], _ => none
  | p :: ps, k => if p.1 = k then some p.2 else mapGet ps k

/-- `m.has(k)` -/
def mapHas : JsMap α → Nat → Bool
  | [], _ => false
  | p :: ps, k => p.1 == k || mapHas ps k

/-- `m.set(k, v)`: replace in place when the key exists, append otherwise.
(A JS `Map` never holds two entries with the same key, so replacing the first
occurrence is the same operation.) -/
def mapSet : JsMap α → Nat → α → JsMap α
  | [], k, v => [(k, v)]
  | p :: ps, k, v => if p.1 = k then (k, v) :: ps else p :: mapSet ps k v

/-- `m.delete(k)`: the map afterwards, and whether an entry existed. -/
def mapDelete : JsMap α → Nat → JsMap α × Bool
  | [], _ => ([], false)
  | p :: ps, k =>
      if p.1 = k then (ps, true)
      else (p :: (mapDelete ps k).1, (mapDelete ps k).2)

/-- `Array.from(m.values())` -/
def mapValues (m : JsMap α) : List α := m.map (·.2)

/-! ### Entity records (shared/schema.ts select types, after MemStorage
normalisation) and insert payloads (the zod insert schemas). -/

structure User where
  id : Nat
  username : String
  password : String
deriving DecidableEq

structure InsertUser where
  username : String
  password : String
deriving DecidableEq

structure Meeting where
  id : Nat
  userId : Nat
  title : String
  startTime : String
  duration : Int
  color : Option String
  date : String
deriving DecidableEq

structure InsertMeeting where
  userId : Nat
  title : String
  startTime : String
  duration : Int
  color : Option String
  date : String
deriving DecidableEq

structure Todo where
  id : Nat
  userId : Nat
  title : String
  description : Option String
  priority : String
  estimatedDuration : Option Int
  completed : Option Bool
  projectId : Option Nat
  dueDate : Option String
  createdAt : Nat
deriving DecidableEq

structure InsertTodo where
  userId : Nat
  title : String
  description : Option String
  priority : Option String
  estimatedDuration : Option Int
  completed : Option Bool
  projectId : Option Nat
  dueDate : Option String
deriving DecidableEq

structure Project where
  id : Nat
  userId : Nat
  name : String
  description : Option String
  color : Option String
deriving DecidableEq

structure InsertProject where
  userId : Nat
  name : String
  description : Option String
  color : Option String
deriving DecidableEq

structure ScheduledItem where
  id : Nat
  userId : Nat
  title : String
  startTime : String
  duration : Int
  date : String
  type : String
  originalId : Option Nat
  color : Option String
deriving DecidableEq

structure InsertScheduledItem where
  userId : Nat
  title : String
  startTime : String
  duration : Int
  date : String
  type : String
  originalId : Option Nat
  color : Option String
deriving DecidableEq

structure Password where
  id : Nat
  userId : Nat
  siteName : String
  url : Option String
  username : Option String
  email : Option String
  password : String
  notes : Option String
  createdAt : Nat
  updatedAt : Nat
deriving DecidableEq

structure InsertPassword where
  userId : Nat
  siteName : String
  url : Option String
  username : Option String
  email : Option String
  password : String
  notes : Option String
deriving DecidableEq

structure Goal where
  id : Nat
  userId : Nat
  title : String
  description : Option String
  targetValue : Option Int
  currentValue : Option Int
  unit : Option String
  category : String
  startDate : String
  targetDate : Option String
  isActive : Option Bool
deriving DecidableEq

structure InsertGoal where
  userId : Nat
  title : String
  description : Option String
  targetValue : Option Int
  currentValue : Option Int
  unit : Option String
  category : String
  startDate : String
  targetDate : Option String
  isActive : Option Bool
deriving DecidableEq

structure HabitTracking where
  id : Nat
  userId : Nat
  habitId : Nat
  date : String
  status : String
  iconKey : String
deriving DecidableEq

structure InsertHabitTracking where
  userId : Nat
  habitId : Nat
  date : String
  status : String
  iconKey : String
deriving DecidableEq

structure HabitLegend where
  id : Nat
  userId : Nat
  iconKey : String
  label : String
  icon : String
  color : String
deriving DecidableEq

structure InsertHabitLegend where
  userId : Nat
  iconKey : String
  label : String
  icon : String
  color : String
deriving DecidableEq

structure Account where
  id : Nat
  userId : Nat
  name : String
  type : String
  balance : String
  currency : Option String
  isActive : Option Bool
deriving DecidableEq

structure InsertAccount where
  userId : Nat
  name : String
  type : String
  balance : Option String
  currency : Option String
  isActive : Option Bool
deriving DecidableEq

structure Transaction where
  id : Nat
  userId : Nat
  accountId : Nat
  amount : String
  type : String
  category : String
  description : Option String
  date : String
  createdAt : Nat
deriving DecidableEq

structure InsertTransaction where
  userId : Nat
  accountId : Nat
  amount : String
  type : String
  category : String
  description : Option String
  date : String
deriving DecidableEq

structure FinancialGoal where
  id : Nat
  userId : Nat
  title : String
  targetAmount : String
  currentAmount : Option String
  weeklyAllocation : Option String
  targetDate : Option String
  isActive : Option Bool
deriving DecidableEq

structure InsertFinancialGoal where
  userId : Nat
  title : String
  targetAmount : String
  currentAmount : Option String
  weeklyAllocation : Option String
  targetDate : Option String
  isActive : Option Bool
deriving DecidableEq

structure HealthScore where
  id : Nat
  userId : Nat
  month : Int
  year : Int
  spiritualScore : Option Int
  mentalScore : Option Int
  socialScore : Option Int
  physicalScore : Option Int
  financialScore : Option Int
  notes : Option String
deriving DecidableEq

structure InsertHealthScore where
  userId : Nat
  month : Int
  year : Int
  spiritualScore : Option Int
  mentalScore : Option Int
  socialScore : Option Int
  physicalScore : Option Int
  financialScore : Option Int
  notes : Option String
deriving DecidableEq

/-! ### MemStorage -/

/-- The `MemStorage` class: one `Map` per entity kind plus the single
store-wide id counter `currentId`. -/
structure MemStorage where
  users : JsMap User
  meetings : JsMap Meeting
  todos : JsMap Todo
  projects : JsMap Project
  scheduledItems : JsMap ScheduledItem
  passwords : JsMap Password
  goals : JsMap Goal
  habitTracking : JsMap HabitTracking
  habitLegends : JsMap HabitLegend
  accounts : JsMap Account
  transactions : JsMap Transaction
  financialGoals : JsMap FinancialGoal
  healthScores : JsMap HealthScore
  currentId : Nat
deriving DecidableEq

namespace MemStorage

/-- The constructor state before `initializeDefaultData` runs: empty maps,
`currentId = 1`. -/
def empty : MemStorage where
  users := []
  meetings := []
  todos := []
  projects := []
  scheduledItems := []
  passwords := []
  goals := []
  habitTracking := []
  habitLegends := []
  accounts := []
  transactions := []
  financialGoals := []
  healthScores := []
  currentId := 1

/-- `createUser`: assign the next id, store, return the record. -/
def createUser (s : MemStorage) (u : InsertUser) : MemStorage × User :=
  let id := s.currentId
  let user : User := { id := id, username := u.username, password := u.password }
  ({ s with users := mapSet s.users id user, currentId := id + 1 }, user)

/-- `createMeeting` (`color: insertMeeting.color ?? null` is the identity under
the `Option` modelling of `string | null | undefined`). -/
def createMeeting (s : MemStorage) (m : InsertMeeting) : MemStorage × Meeting :=
  let id := s.currentId
  let r : Meeting :=
    { id := id, userId := m.userId, title := m.title, startTime := m.startTime,
      duration := m.duration, color := m.color, date := m.date }
  ({ s with meetings := mapSet s.meetings id r, currentId := id + 1 }, r)

/-- `createTodo`; `now` is the `new Date()` value for `createdAt`;
`priority ?? "medium"` resolves the insert-schema default. -/
def createTodo (s : MemStorage) (t : InsertTodo) (now : Nat) : MemStorage × Todo :=
  let id := s.currentId
  let r : Todo :=
    { id := id, userId := t.userId, title := t.title, description := t.description,
      priority := t.priority.getD "medium", estimatedDuration := t.estimatedDuration,
      completed := t.completed, projectId := t.projectId, dueDate := t.dueDate,
      createdAt := now }
  ({ s with todos := mapSet s.todos id r, currentId := id + 1 }, r)

/-- `createProject` -/
def createProject (s : MemStorage) (p : InsertProject) : MemStorage × Project :=
  let id := s.currentId
  let r : Project :=
    { id := id, userId := p.userId, name := p.name, description := p.description,
      color := p.color }
  ({ s with projects := mapSet s.projects id r, currentId := id + 1 }, r)

/-- `createScheduledItem` -/
def createScheduledItem (s : MemStorage) (i : InsertScheduledItem) :
    MemStorage × ScheduledItem :=
  let id := s.currentId
  let r : ScheduledItem :=
    { id := id, userId := i.userId, title := i.title, startTime := i.startTime,
      duration := i.duration, date := i.date, type := i.type,
      originalId := i.originalId, color := i.color }
  ({ s with scheduledItems := mapSet s.scheduledItems id r, currentId := id + 1 }, r)

/-- `createPassword`; `now` stands for both `new Date()` calls. -/
def createPassword (s : MemStorage) (p : InsertPassword) (now : Nat) :
    MemStorage × Password :=
  let id := s.currentId
  let r : Password :=
    { id := id, userId := p.userId, siteName := p.siteName, url := p.url,
      username := p.username, email := p.email, password := p.password,
      notes := p.notes, createdAt := now, updatedAt := now }
  ({ s with passwords := mapSet s.passwords id r, currentId := id + 1 }, r)

/-- `createGoal` -/
def createGoal (s : MemStorage) (g : InsertGoal) : MemStorage × Goal :=
  let id := s.currentId
  let r : Goal :=
    { id := id, userId := g.userId, title := g.title, description := g.description,
      targetValue := g.targetValue, currentValue := g.currentValue, unit := g.unit,
      category := g.category, startDate := g.startDate, targetDate := g.targetDate,
      isActive := g.isActive }
  ({ s with goals := mapSet s.goals id r, currentId := id + 1 }, r)

/-- `createHabitTracking` -/
def createHabitTracking (s : MemStorage) (t : InsertHabitTracking) :
    MemStorage × HabitTracking :=
  let id := s.currentId
  let r : HabitTracking :=
    { id := id, userId := t.userId, habitId := t.habitId, date := t.date,
      status := t.status, iconKey := t.iconKey }
  ({ s with habitTracking := mapSet s.habitTracking id r, currentId := id + 1 }, r)

/-- `createHabitLegend` -/
def createHabitLegend (s : MemStorage) (l : InsertHabitLegend) :
    MemStorage × HabitLegend :=
  let id := s.currentId
  let r : HabitLegend :=
    { id := id, userId := l.userId, iconKey := l.iconKey, label := l.label,
      icon := l.icon, color := l.color }
  ({ s with habitLegends := mapSet s.habitLegends id r, currentId := id + 1 }, r)

/-- `createAccount` (`balance ?? "0.00"` resolves the default). -/
def createAccount (s : MemStorage) (a : InsertAccount) : MemStorage × Account :=
  let id := s.currentId
  let r : Account :=
    { id := id, userId := a.userId, name := a.name, type := a.type,
      balance := a.balance.getD "0.00", currency := a.currency,
      isActive := a.isActive }
  ({ s with accounts := mapSet s.accounts id r, currentId := id + 1 }, r)

/-- `createTransaction`; `now` is the `new Date()` value. -/
def createTransaction (s : MemStorage) (t : InsertTransaction) (now : Nat) :
    MemStorage × Transaction :=
  let id := s.currentId
  let r : Transaction :=
    { id := id, userId := t.userId, accountId := t.accountId, amount := t.amount,
      type := t.type, category := t.category, description := t.description,
      date := t.date, createdAt := now }
  ({ s with transactions := mapSet s.transactions id r, currentId := id + 1 }, r)

/-- `createFinancialGoal` -/
def createFinancialGoal (s : MemStorage) (g : InsertFinancialGoal) :
    MemStorage × FinancialGoal :=
  let id := s.currentId
  let r : FinancialGoal :=
    { id := id, userId := g.userId, title := g.title, targetAmount := g.targetAmount,
      currentAmount := g.currentAmount, weeklyAllocation := g.weeklyAllocation,
      targetDate := g.targetDate, isActive := g.isActive }
  ({ s with financialGoals := mapSet s.financialGoals id r, currentId := id + 1 }, r)

/-- `createHealthScore` -/
def createHealthScore (s : MemStorage) (h : InsertHealthScore) :
    MemStorage × HealthScore :=
  let id := s.currentId
  let r : HealthScore :=
    { id := id, userId := h.userId, month := h.month, year := h.year,
      spiritualScore := h.spiritualScore, mentalScore := h.mentalScore,
      socialScore := h.socialScore, physicalScore := h.physicalScore,
      financialScore := h.financialScore, notes := h.notes }
  ({ s with healthScores := mapSet s.healthScores id r, currentId := id + 1 }, r)

/-- `initializeDefaultData`, run by the constructor: the demo user and the four
default habit legends. -/
def init : MemStorage :=
  let (s1, u) := empty.createUser { username := "demo", password := "demo" }
  let (s2, _) := s1.createHabitLegend
    { userId := u.id, iconKey := "completed", label := "Completed",
      icon := "CheckCircle", color := "#10B981" }
  let (s3, _) := s2.createHabitLegend
    { userId := u.id, iconKey := "not_completed", label := "Not Completed",
      icon := "X", color := "#EF4444" }
  let (s4, _) := s3.createHabitLegend
    { userId := u.id, iconKey := "not_applicable", label := "Not Applicable",
      icon := "Minus", color := "#6B7280" }
  let (s5, _) := s4.createHabitLegend
    { userId := u.id, iconKey := "partial", label := "Partial",
      icon := "Circle", color := "#F59E0B" }
  s5

/-- `getTodosByUser` -/
def getTodosByUser (s : MemStorage) (userId : Nat) : List Todo :=
  (mapValues s.todos).filter (fun t => t.userId == userId)

/-- `getMeetingsByUserAndDate` -/
def getMeetingsByUserAndDate (s : MemStorage) (userId : Nat) (date : String) :
    List Meeting :=
  (mapValues s.meetings).filter (fun m => m.userId == userId && m.date == date)

/-- `getHealthScoreByUserAndMonth`: `Array.from(values()).find(...)`. -/
def getHealthScoreByUserAndMonth (s : MemStorage) (userId : Nat)
    (month year : Int) : Option HealthScore :=
  (mapValues s.healthScores).find?
    (fun h => h.userId == userId && h.month == month && h.year == year)

end MemStorage

/-! ### PUT patch bodies (the `insertXSchema.partial()` parse results) and the
spread-merge `{ ...existing, ...patch }`.  A patch field is `none` when absent
from the body; for a nullable column a present field carries the select type
(`Option`), so an explicit `null` is `some none`. -/

structure MeetingPatch where
  userId : Option Nat
  title : Option String
  startTime : Option String
  duration : Option Int
  color : Option (Option String)
  date : Option String
deriving DecidableEq

/-- The empty PUT body `{}`. -/
def MeetingPatch.empty : MeetingPatch where
  userId := none
  title := none
  startTime := none
  duration := none
  color := none
  date := none

/-- `{ ...existing, ...patch }` for meetings; the insert schema omits `id`, so
a patch can never touch it. -/
def mergeMeeting (e : Meeting) (p : MeetingPatch) : Meeting where
  id := e.id
  userId := p.userId.getD e.userId
  title := p.title.getD e.title
  startTime := p.startTime.getD e.startTime
  duration := p.duration.getD e.duration
  color := p.color.getD e.color
  date := p.date.getD e.date

structure TodoPatch where
  userId : Option Nat
  title : Option String
  description : Option (Option String)
  priority : Option String
  estimatedDuration : Option (Option Int)
  completed : Option (Option Bool)
  projectId : Option (Option Nat)
  dueDate : Option (Option String)
deriving DecidableEq

/-- The empty PUT body `{}`. -/
def TodoPatch.empty : TodoPatch where
  userId := none
  title := none
  description := none
  priority := none
  estimatedDuration := none
  completed := none
  projectId := none
  dueDate := none

/-- The PUT body `{completed: true}`. -/
def TodoPatch.completedTrue : TodoPatch :=
  { TodoPatch.empty with completed := some (some true) }

/-- `{ ...existing, ...patch }` for todos; the insert schema omits `id` and
`createdAt`, so a patch can never touch them. -/
def mergeTodo (e : Todo) (p : TodoPatch) : Todo where
  id := e.id
  userId := p.userId.getD e.userId
  title := p.title.getD e.title
  description := p.description.getD e.description
  priority := p.priority.getD e.priority
  estimatedDuration := p.estimatedDuration.getD e.estimatedDuration
  completed := p.completed.getD e.completed
  projectId := p.projectId.getD e.projectId
  dueDate := p.dueDate.getD e.dueDate
  createdAt := e.createdAt

namespace MemStorage

/-- `updateMeeting`: read, spread-merge, write back; `undefined` when absent. -/
def updateMeeting (s : MemStorage) (id : Nat) (p : MeetingPatch) :
    MemStorage × Option Meeting :=
  match mapGet s.meetings id with
  | none => (s, none)
  | some e =>
      let u := mergeMeeting e p
      ({ s with meetings := mapSet s.meetings id u }, some u)

/-- `updateTodo`: read, spread-merge, write back; `undefined` when absent. -/
def updateTodo (s : MemStorage) (id : Nat) (p : TodoPatch) :
    MemStorage × Option Todo :=
  match mapGet s.todos id with
  | none => (s, none)
  | some e =>
      let u := mergeTodo e p
      ({ s with todos := mapSet s.todos id u }, some u)

/-- `deleteTodo`: `this.todos.delete(id)`. -/
def deleteTodo (s : MemStorage) (id : Nat) : MemStorage × Bool :=
  let (m, existed) := mapDelete s.todos id
  ({ s with todos := m }, existed)

end MemStorage

/-! ### HTTP layer (`registerRoutes`).  Responses are either `res.json(body)`
(status 200) or `res.status(code).json({ message })`.  The 500 branches of the
handlers are unreachable in this embedding because the pure store never
throws; the zod `parse` throw is the explicit failure case of the body
parsers below. -/

inductive ApiResult (α : Type) where
  | json (body : α)
  | err (status : Nat) (message : String)
deriving DecidableEq

/-- HTTP status of a response (`res.json` defaults to 200). -/
def ApiResult.status : ApiResult α → Nat
  | .json _ => 200
  | .err s _ => s

/-- The hard-coded demo user: `const currentUserId = 1`. -/
def demoUserId : Nat := 1

/-- Raw POST body for `/api/meetings`, before schema validation: each field is
present or absent.  (`userId` from the body is irrelevant: the route overrides
it with `currentUserId` before parsing.) -/
structure MeetingBody where
  title : Option String
  startTime : Option String
  duration : Option Int
  color : Option String
  date : Option String
deriving DecidableEq

/-- `insertMeetingSchema.parse({ ...req.body, userId })`: all `notNull` columns
without defaults must be present, otherwise the parse throws (`none`). -/
def parseInsertMeeting (b : MeetingBody) (userId : Nat) : Option InsertMeeting :=
  match b.title, b.startTime, b.duration, b.date with
  | some title, some st, some dur, some date =>
      some { userId := userId, title := title, startTime := st, duration := dur,
             color := b.color, date := date }
  | _, _, _, _ => none

/-- `POST /api/meetings` -/
def postMeetingRoute (s : MemStorage) (b : MeetingBody) :
    MemStorage × ApiResult Meeting :=
  match parseInsertMeeting b demoUserId with
  | none => (s, .err 400 "Invalid meeting data")
  | some data =>
      let (s2, m) := s.createMeeting data
      (s2, .json m)

/-- `GET /api/meetings/:date` -/
def getMeetingsRoute (s : MemStorage) (date : String) : ApiResult (List Meeting) :=
  .json (s.getMeetingsByUserAndDate demoUserId date)

/-- `PUT /api/meetings/:id` (body already past `insertMeetingSchema.partial()`). -/
def putMeetingRoute (s : MemStorage) (id : Nat) (p : MeetingPatch) :
    MemStorage × ApiResult Meeting :=
  match s.updateMeeting id p with
  | (s2, some m) => (s2, .json m)
  | (s2, none) => (s2, .err 404 "Meeting not found")

/-- `GET /api/todos` -/
def getTodosRoute (s : MemStorage) : ApiResult (List Todo) :=
  .json (s.getTodosByUser demoUserId)

/-- `PUT /api/todos/:id` (body already past `insertTodoSchema.partial()`). -/
def putTodoRoute (s : MemStorage) (id : Nat) (p : TodoPatch) :
    MemStorage × ApiResult Todo :=
  match s.updateTodo id p with
  | (s2, some t) => (s2, .json t)
  | (s2, none) => (s2, .err 404 "Todo not found")

/-- `DELETE /api/todos/:id`: 404 when nothing was deleted, else `{success:true}`
(modelled as `json true`). -/
def deleteTodoRoute (s : MemStorage) (id : Nat) : MemStorage × ApiResult Bool :=
  match s.deleteTodo id with
  | (s2, true) => (s2, .json true)
  | (s2, false) => (s2, .err 404 "Todo not found")

/-- The POST body for `/api/scheduled-items` as the drag-and-drop coordinator
builds it: the required columns are always present, `originalId` and `color`
optional. -/
structure ScheduledItemBody where
  title : String
  startTime : String
  duration : Int
  date : String
  type : String
  originalId : Option Nat
  color : Option String
deriving DecidableEq

/-- `{ ...req.body, userId: currentUserId }` for a scheduled-item body; with
all required fields present the schema parse always succeeds. -/
def ScheduledItemBody.withUser (b : ScheduledItemBody) (userId : Nat) :
    InsertScheduledItem where
  userId := userId
  title := b.title
  startTime := b.startTime
  duration := b.duration
  date := b.date
  type := b.type
  originalId := b.originalId
  color := b.color

/-- `POST /api/scheduled-items` on a coordinator-built body. -/
def postScheduledItemRoute (s : MemStorage) (b : ScheduledItemBody) :
    MemStorage × ApiResult ScheduledItem :=
  let (s2, r) := s.createScheduledItem (b.withUser demoUserId)
  (s2, .json r)

/-- Raw POST body for `/api/health-scores`. -/
structure HealthScoreBody where
  month : Option Int
  year : Option Int
  spiritualScore : Option Int
  mentalScore : Option Int
  socialScore : Option Int
  physicalScore : Option Int
  financialScore : Option Int
  notes : Option String
deriving DecidableEq

/-- `insertHealthScoreSchema.parse({ ...req.body, userId })`: `month` and
`year` are the `notNull` columns without defaults. -/
def parseInsertHealthScore (b : HealthScoreBody) (userId : Nat) :
    Option InsertHealthScore :=
  match b.month, b.year with
  | some month, some year =>
      some { userId := userId, month := month, year := year,
             spiritualScore := b.spiritualScore, mentalScore := b.mentalScore,
             socialScore := b.socialScore, physicalScore := b.physicalScore,
             financialScore := b.financialScore, notes := b.notes }
  | _, _ => none

/-- `POST /api/health-scores` -/
def postHealthScoreRoute (s : MemStorage) (b : HealthScoreBody) :
    MemStorage × ApiResult HealthScore :=
  match parseInsertHealthScore b demoUserId with
  | none => (s, .err 400 "Invalid health score data")
  | some data =>
      let (s2, h) := s.createHealthScore data
      (s2, .json h)

/-- `GET /api/health-scores/:month/:year`: `res.json(score || null)`, so the
body is the optional record and the status is always 200 on this path. -/
def getHealthScoreRoute (s : MemStorage) (month year : Int) :
    ApiResult (Option HealthScore) :=
  .json (s.getHealthScoreByUserAndMonth demoUserId month year)

/-! ### Drag-and-drop coordinator (`handleDragEnd` in the DailyPlanner pages).
Two textual variants exist in the repository; they differ only in the todo
duration fallback (30 vs 60 minutes) and in whether a `color` is sent. -/

/-- DOM id of a draggable meeting: `meeting-${meeting.id}`. -/
def meetingKey (id : Nat) : String := "meeting-" ++ Nat.repr id

/-- DOM id of a draggable todo: `todo-${todo.id}`. -/
def todoKey (id : Nat) : String := "todo-" ++ Nat.repr id

/-- Attempt of `/time-(\d{2}:\d{2})/` at the current position: literal
`time-`, two digits, `:`, two digits; the capture group on success. -/
def timeSlotAt : List Char → Option String
  | 't' :: 'i' :: 'm' :: 'e' :: '-' :: d1 :: d2 :: ':' :: d3 :: d4 :: _ =>
      if d1.isDigit && d2.isDigit && d3.isDigit && d4.isDigit then
        some (String.mk [d1, d2, ':', d3, d4])
      else none
  | _ => none

/-- Left-to-right scan of the unanchored regex: first position where
`timeSlotAt` succeeds. -/
def findTimeSlot : List Char → Option String
  | [] => none
  | c :: cs =>
      match timeSlotAt (c :: cs) with
      | some s => some s
      | none => findTimeSlot cs

/-- `dropZoneId.match(/time-(\d{2}:\d{2})/)`, capture group 1. -/
def timeSlotMatch (dropZoneId : String) : Option String :=
  findTimeSlot dropZoneId.data

/-- The `@dnd-kit` drag-end event: `active.id` and the optional `over.id`. -/
structure DragEndEvent where
  activeId : String
  overId : Option String
deriving DecidableEq

/-- JS `v || dflt` on a nullable number: `null`, `undefined` and `0` are falsy. -/
def jsOrInt (v : Option Int) (dflt : Int) : Int :=
  match v with
  | some d => if d = 0 then dflt else d
  | none => dflt

/-- JS `v || dflt` on a nullable string: `null`, `undefined` and `""` are falsy. -/
def jsOrStr (v : Option String) (dflt : String) : String :=
  match v with
  | some s => if s = "" then dflt else s
  | none => dflt

/-- `handleDragEnd` (the variant that sends colors and falls back to 30
minutes): the create-scheduled-item mutation payload it issues, or `none`
when the drop is a no-op. -/
def handleDragEnd (meetings : List Meeting) (todos : List Todo)
    (selectedDate : String) (ev : DragEndEvent) : Option ScheduledItemBody :=
  match ev.overId with
  | none => none
  | some dropZoneId =>
    match timeSlotMatch dropZoneId with
    | none => none
    | some startTime =>
      match meetings.find? (fun m => meetingKey m.id == ev.activeId) with
      | some meeting =>
          some { title := meeting.title, startTime := startTime,
                 duration := meeting.duration, date := selectedDate,
                 type := "meeting", originalId := some meeting.id,
                 color := some (jsOrStr meeting.color "#3B82F6") }
      | none =>
        match todos.find? (fun t => todoKey t.id == ev.activeId) with
        | some todo =>
            some { title := todo.title, startTime := startTime,
                   duration := jsOrInt todo.estimatedDuration 30,
                   date := selectedDate, type := "todo",
                   originalId := some todo.id, color := some "#7C3AED" }
        | none => none

/-- The other `handleDragEnd` variant: no colors, todo fallback 60 minutes. -/
def handleDragEndAlt (meetings : List Meeting) (todos : List Todo)
    (selectedDate : String) (ev : DragEndEvent) : Option ScheduledItemBody :=
  match ev.overId with
  | none => none
  | some dropZoneId =>
    match timeSlotMatch dropZoneId with
    | none => none
    | some startTime =>
      match meetings.find? (fun m => meetingKey m.id == ev.activeId) with
      | some meeting =>
          some { title := meeting.title, startTime := startTime,
                 duration := meeting.duration, date := selectedDate,
                 type := "meeting", originalId := some meeting.id,
                 color := none }
      | none =>
        match todos.find? (fun t => todoKey t.id == ev.activeId) with
        | some todo =>
            some { title := todo.title, startTime := startTime,
                   duration := jsOrInt todo.estimatedDuration 60,
                   date := selectedDate, type := "todo",
                   originalId := some todo.id, color := none }
        | none => none

/-- Effect of one drag-end on the server store: the mutation, if issued,
POSTs to `/api/scheduled-items`; otherwise the store is untouched. -/
def dragEndEffect (s : MemStorage) (meetings : List Meeting) (todos : List Todo)
    (selectedDate : String) (ev : DragEndEvent) : MemStorage :=
  match handleDragEnd meetings todos selectedDate ev with
  | none => s
  | some b => (postScheduledItemRoute s b).1

/-- Same for the no-color variant. -/
def dragEndEffectAlt (s : MemStorage) (meetings : List Meeting)
    (todos : List Todo) (selectedDate : String) (ev : DragEndEvent) : MemStorage :=
  match handleDragEndAlt meetings todos selectedDate ev with
  | none => s
  | some b => (postScheduledItemRoute s b).1

/-! ### Arbitrary sequences of creates (for the global id counter). -/

/-- One successful create of any entity kind, with its payload (and the clock
value for the creates that call `new Date()`). -/
inductive CreateOp where
  | user (u : InsertUser)
  | meeting (m : InsertMeeting)
  | todo (t : InsertTodo) (now : Nat)
  | project (p : InsertProject)
  | scheduledItem (i : InsertScheduledItem)
  | password (p : InsertPassword) (now : Nat)
  | goal (g : InsertGoal)
  | habitTracking (t : InsertHabitTracking)
  | habitLegend (l : InsertHabitLegend)
  | account (a : InsertAccount)
  | transaction (t : InsertTransaction) (now : Nat)
  | financialGoal (g : InsertFinancialGoal)
  | healthScore (h : InsertHealthScore)
deriving DecidableEq

/-- Dispatch a create to the store; result is the new store and the id the
create assigned to the returned record. -/
def applyCreate (s : MemStorage) : CreateOp → MemStorage × Nat
  | .user u => let (s2, r) := s.createUser u; (s2, r.id)
  | .meeting m => let (s2, r) := s.createMeeting m; (s2, r.id)
  | .todo t now => let (s2, r) := s.createTodo t now; (s2, r.id)
  | .project p => let (s2, r) := s.createProject p; (s2, r.id)
  | .scheduledItem i => let (s2, r) := s.createScheduledItem i; (s2, r.id)
  | .password p now => let (s2, r) := s.createPassword p now; (s2, r.id)
  | .goal g => let (s2, r) := s.createGoal g; (s2, r.id)
  | .habitTracking t => let (s2, r) := s.createHabitTracking t; (s2, r.id)
  | .habitLegend l => let (s2, r) := s.createHabitLegend l; (s2, r.id)
  | .account a => let (s2, r) := s.createAccount a; (s2, r.id)
  | .transaction t now => let (s2, r) := s.createTransaction t now; (s2, r.id)
  | .financialGoal g => let (s2, r) := s.createFinancialGoal g; (s2, r.id)
  | .healthScore h => let (s2, r) := s.createHealthScore h; (s2, r.id)

/-- Run a sequence of creates; result is the final store and the ids assigned,
in order. -/
def runCreates (s : MemStorage) : List CreateOp → MemStorage × List Nat
  | [] => (s, [])
  | op :: ops =>
      let (s2, id) := applyCreate s op
      let (s3, ids) := runCreates s2 ops
      (s3, id :: ids)

/-! ### Concrete sample data (used to witness the theorems below on
explicit inputs) -/

def sampleTodo : Todo where
  id := 7
  userId := 1
  title := "Write report"
  description := some "weekly status"
  priority := "high"
  estimatedDuration := some 45
  completed := some false
  projectId := none
  dueDate := none
  createdAt := 0

def sampleMeeting : Meeting where
  id := 8
  userId := 1
  title := "Standup"
  startTime := "09:00"
  duration := 30
  color := none
  date := "2025-06-16"

def sampleHealthScore : HealthScore where
  id := 9
  userId := 1
  month := 6
  year := 2025
  spiritualScore := some 7
  mentalScore := some 5
  socialScore := none
  physicalScore := none
  financialScore := none
  notes := none

/-- The post-constructor store with one todo, one meeting and one health score
added under their record ids. -/
def sampleStore : MemStorage :=
  { MemStorage.init with
      todos := [(sampleTodo.id, sampleTodo)],
      meetings := [(sampleMeeting.id, sampleMeeting)],
      healthScores := [(sampleHealthScore.id, sampleHealthScore)] }

def sampleMeetingBody : MeetingBody where
  title := some "Standup"
  startTime := some "09:00"
  duration := some 30
  color := none
  date := some "2025-06-16"

/-- A POST body missing the required `title`. -/
def badMeetingBody : MeetingBody where
  title := none
  startTime := some "09:00"
  duration := some 30
  color := none
  date := some "2025-06-16"

def sampleHealthBody : HealthScoreBody where
  month := some 6
  year := some 2025
  spiritualScore := some 7
  mentalScore := none
  socialScore := none
  physicalScore := none
  financialScore := none
  notes := none

def sampleHealthInsert : InsertHealthScore where
  userId := demoUserId
  month := 6
  year := 2025
  spiritualScore := some 7
  mentalScore := none
  socialScore := none
  physicalScore := none
  financialScore := none
  notes := none

/-- A PUT body `{title: "Renamed"}`. -/
def renamePatch : MeetingPatch :=
  { MeetingPatch.empty with title := some "Renamed" }

/-! ### Lemmas about the `JsMap` model -/

theorem mapGet_mapSet_self (m : JsMap α) (k : Nat) (v : α) :
    mapGet (mapSet m k v) k = some v := by
  induction m with
  | nil => simp [mapSet, mapGet]
  | cons p ps ih =>
      by_cases hp : p.1 = k
      · simp [mapSet, hp, mapGet]
      · simp [mapSet, hp, mapGet, ih]

theorem mapGet_mapSet_ne (m : JsMap α) (k k' : Nat) (v : α) (h : k' ≠ k) :
    mapGet (mapSet m k v) k' = mapGet m k' := by
  have hkk : ¬(k = k') := fun hk => h hk.symm
  induction m with
  | nil => simp [mapSet, mapGet, hkk]
  | cons p ps ih =>
      by_cases hp : p.1 = k
      · have hp' : ¬(p.1 = k') := by rw [hp]; exact hkk
        simp [mapSet, hp, mapGet, hkk, hp']
      · by_cases hq : p.1 = k' <;> simp [mapSet, hp, mapGet, hq, ih, h]

theorem mem_mapValues_of_mapGet {m : JsMap α} {k : Nat} {v : α}
    (h : mapGet m k = some v) : v ∈ mapValues m := by
  induction m with
  | nil => cases h
  | cons p ps ih =>
      by_cases hp : p.1 = k
      · rw [mapGet, if_pos hp] at h
        simp [mapValues, ← Option.some_inj.mp h]
      · rw [mapGet, if_neg hp] at h
        simp only [mapValues, List.map_cons, List.mem_cons]
        exact Or.inr (ih h)

theorem mapDelete_of_none {m : JsMap α} {k : Nat}
    (h : mapGet m k = none) : mapDelete m k = (m, false) := by
  induction m with
  | nil => rfl
  | cons p ps ih =>
      by_cases hp : p.1 = k
      · rw [mapGet, if_pos hp] at h
        cases h
      · rw [mapGet, if_neg hp] at h
        simp [mapDelete, hp, ih h]

/-! ### Injectivity of `Nat.repr` (decimal printing), needed to resolve the
DOM ids `todo-${id}` / `meeting-${id}` back to unique records. -/

/-- Reference decimal digit string of `n`, most significant digit first. -/
def repDigits (n : Nat) : List Char :=
  if h : n / 10 = 0 then [Nat.digitChar (n % 10)]
  else repDigits (n / 10) ++ [Nat.digitChar (n % 10)]
termination_by n
decreasing_by
  exact Nat.div_lt_self (Nat.pos_of_ne_zero fun h0 => h (by simp [h0])) (by norm_num)

theorem repDigits_eq_zero {n : Nat} (h : n / 10 = 0) :
    repDigits n = [Nat.digitChar (n % 10)] := by
  rw [repDigits, dif_pos h]

theorem repDigits_eq_pos {n : Nat} (h : ¬n / 10 = 0) :
    repDigits n = repDigits (n / 10) ++ [Nat.digitChar (n % 10)] := by
  rw [repDigits, dif_neg h]

theorem repDigits_ne_nil (n : Nat) : repDigits n ≠ [] := by
  by_cases h : n / 10 = 0
  · rw [repDigits_eq_zero h]; simp
  · rw [repDigits_eq_pos h]; simp

theorem digitChar_inj_fin :
    ∀ a b : Fin 10, Nat.digitChar a.val = Nat.digitChar b.val → a = b := by
  decide

theorem digitChar_inj {a b : Nat} (ha : a < 10) (hb : b < 10)
    (h : Nat.digitChar a = Nat.digitChar b) : a = b := by
  have := digitChar_inj_fin ⟨a, ha⟩ ⟨b, hb⟩ h
  simpa [Fin.ext_iff] using this

theorem repDigits_inj : ∀ m n : Nat, repDigits m = repDigits n → m = n := by
  intro m
  induction m using Nat.strong_induction_on with
  | _ m ih =>
      intro n h
      by_cases hm : m / 10 = 0 <;> by_cases hn : n / 10 = 0
      · rw [repDigits_eq_zero hm, repDigits_eq_zero hn] at h
        have hd : m % 10 = n % 10 :=
          digitChar_inj (Nat.mod_lt _ (by norm_num)) (Nat.mod_lt _ (by norm_num))
            (by simpa using h)
        omega
      · rw [repDigits_eq_zero hm, repDigits_eq_pos hn] at h
        have := congrArg List.length h
        have hne := repDigits_ne_nil (n / 10)
        simp only [List.length_append, List.length_singleton] at this
        have : (repDigits (n / 10)).length = 0 := by omega
        exact absurd (List.length_eq_zero.mp this) hne
      · rw [repDigits_eq_pos hm, repDigits_eq_zero hn] at h
        have := congrArg List.length h
        have hne := repDigits_ne_nil (m / 10)
        simp only [List.length_append, List.length_singleton] at this
        have : (repDigits (m / 10)).length = 0 := by omega
        exact absurd (List.length_eq_zero.mp this) hne
      · rw [repDigits_eq_pos hm, repDigits_eq_pos hn] at h
        obtain ⟨hpre, hsuf⟩ := List.append_inj' h rfl
        have hdivlt : m / 10 < m :=
          Nat.div_lt_self (Nat.pos_of_ne_zero fun h0 => hm (by simp [h0])) (by norm_num)
        have hdiv : m / 10 = n / 10 := ih (m / 10) hdivlt (n / 10) hpre
        have hd : m % 10 = n % 10 :=
          digitChar_inj (Nat.mod_lt _ (by norm_num)) (Nat.mod_lt _ (by norm_num))
            (by simpa using hsuf)
        omega

theorem toDigitsCore_eq_repDigits :
    ∀ (fuel n : Nat) (acc : List Char), n < fuel →
      Nat.toDigitsCore 10 fuel n acc = repDigits n ++ acc := by
  intro fuel
  induction fuel with
  | zero => intro n acc h; omega
  | succ fuel ih =>
      intro n acc h
      rw [Nat.toDigitsCore]
      by_cases hn : n / 10 = 0
      · simp only [hn, if_pos rfl]
        rw [repDigits_eq_zero hn]
        rfl
      · simp only [if_neg hn]
        have hlt : n / 10 < fuel := by
          have h1 : n / 10 < n :=
            Nat.div_lt_self (Nat.pos_of_ne_zero fun h0 => hn (by simp [h0])) (by norm_num)
          omega
        rw [ih (n / 10) (Nat.digitChar (n % 10) :: acc) hlt]
        rw [repDigits_eq_pos hn]
        simp

theorem repr_inj : Function.Injective Nat.repr := by
  intro m n h
  have hm : Nat.repr m = (repDigits m).asString := by
    show (Nat.toDigits 10 m).asString = _
    rw [Nat.toDigits, toDigitsCore_eq_repDigits (m + 1) m [] (Nat.lt_succ_self m),
      List.append_nil]
  have hn : Nat.repr n = (repDigits n).asString := by
    show (Nat.toDigits 10 n).asString = _
    rw [Nat.toDigits, toDigitsCore_eq_repDigits (n + 1) n [] (Nat.lt_succ_self n),
      List.append_nil]
  rw [hm, hn] at h
  have : repDigits m = repDigits n := by
    have := congrArg String.data h
    simpa [List.asString] using this
  exact repDigits_inj m n this

/-! ### DOM-id lemmas -/

theorem todoKey_inj {a b : Nat} (h : todoKey a = todoKey b) : a = b := by
  apply repr_inj
  apply String.ext
  have := congrArg String.data h
  rw [todoKey, todoKey, String.data_append, String.data_append] at this
  exact List.append_cancel_left this

theorem meetingKey_ne_todoKey (a b : Nat) : meetingKey a ≠ todoKey b := by
  intro h
  have := congrArg String.data h
  rw [meetingKey, todoKey, String.data_append, String.data_append] at this
  have hhead := congrArg (List.head?) this
  simp at hhead

/-! ### `find?` helpers -/

theorem find?_eq_some_of_unique {p : α → Bool} {l : List α} {a : α}
    (ha : a ∈ l) (hpa : p a = true) (hu : ∀ b ∈ l, p b = true → b = a) :
    l.find? p = some a := by
  induction l with
  | nil => cases ha
  | cons x xs ih =>
      by_cases hx : p x = true
      · have hxa : x = a := hu x (List.mem_cons_self x xs) hx
        subst hxa
        exact List.find?_cons_of_pos _ hx
      · rw [List.find?_cons_of_neg _ hx]
        have hax : a ≠ x := fun h => hx (h ▸ hpa)
        have ha' : a ∈ xs := by
          rcases List.mem_cons.mp ha with h | h
          · exact absurd h hax
          · exact h
        exact ih ha' fun b hb hpb => hu b (List.mem_cons_of_mem _ hb) hpb

theorem find?_append_first {p : α → Bool} (l1 l2 : List α) (a : α)
    (h1 : ∀ x ∈ l1, p x = false) (ha : p a = true) :
    (l1 ++ a :: l2).find? p = some a := by
  induction l1 with
  | nil => simpa using List.find?_cons_of_pos _ ha
  | cons x xs ih =>
      rw [List.cons_append,
        List.find?_cons_of_neg _ (by simp [h1 x (List.mem_cons_self x xs)])]
      exact ih fun y hy => h1 y (List.mem_cons_of_mem _ hy)

/-! ### Facts about `applyCreate` / `runCreates` -/

theorem applyCreate_assigns (s : MemStorage) (op : CreateOp) :
    (applyCreate s op).2 = s.currentId ∧
    (applyCreate s op).1.currentId = s.currentId + 1 := by
  cases op <;> exact ⟨rfl, rfl⟩

theorem runCreates_ids (s : MemStorage) (ops : List CreateOp) :
    (runCreates s ops).2 = List.range' s.currentId ops.length := by
  induction ops generalizing s with
  | nil => rfl
  | cons op ops ih =>
      show (applyCreate s op).2 :: (runCreates (applyCreate s op).1 ops).2 = _
      rw [(applyCreate_assigns s op).1, ih, (applyCreate_assigns s op).2,
        List.length_cons, List.range'_succ]

/-! ### The claims -/

/-- C3: in any sequence of successful creates, of any mixture of the thirteen
entity kinds, each create is assigned an id strictly greater than every id
assigned by an earlier create (`Pairwise (· < ·)` on the ids in order), and
hence all assigned ids are distinct across entity kinds (`Nodup`). -/
theorem createIds_strictly_increasing (s : MemStorage) (ops : List CreateOp) :
    (runCreates s ops).2.Pairwise (· < ·) ∧ (runCreates s ops).2.Nodup := by
  rw [runCreates_ids]
  exact ⟨List.pairwise_lt_range' _ _, List.nodup_range' _ _⟩

/-- C8: `GET /api/meetings/:date` responds with exactly those stored meetings
whose `date` equals the path parameter and whose `userId` is the demo user,
and no others. -/
theorem getMeetings_exactly_filtered (s : MemStorage) (date : String) (m : Meeting) :
    getMeetingsRoute s date = .json (s.getMeetingsByUserAndDate demoUserId date) ∧
    (m ∈ s.getMeetingsByUserAndDate demoUserId date ↔
      m ∈ mapValues s.meetings ∧ m.userId = demoUserId ∧ m.date = date) := by
  refine ⟨rfl, ?_⟩
  simp [MemStorage.getMeetingsByUserAndDate, List.mem_filter, and_assoc]

/-- C6: a `DELETE /api/todos/:id` for an id absent from the todos map responds
404 and leaves the store (every entity map, hence also every list length)
unchanged. -/
theorem delete_unknown_id_404_noop (s : MemStorage) (id : Nat)
    (h : mapGet s.todos id = none) :
    (deleteTodoRoute s id).2 = .err 404 "Todo not found" ∧
    (deleteTodoRoute s id).1 = s ∧
    (deleteTodoRoute s id).1.todos.length = s.todos.length := by
  have h2 : s.deleteTodo id = (s, false) := by
    show ({ s with todos := (mapDelete s.todos id).1 }, (mapDelete s.todos id).2)
      = (s, false)
    rw [mapDelete_of_none h]
  have h3 : deleteTodoRoute s id = (s, .err 404 "Todo not found") := by
    unfold deleteTodoRoute
    rw [h2]
  exact ⟨by rw [h3], by rw [h3], by rw [h3]⟩

/-- C5: `PUT /api/meetings/:id` with a valid partial payload returns and stores
the shallow merge of the existing record with the payload — every field
present in the payload overwrites, every absent field is kept — when the id is
present; when the id is absent it responds 404 and the store is unchanged. -/
theorem update_merges_or_404 (s : MemStorage) (id : Nat) (p : MeetingPatch) :
    (∀ e, mapGet s.meetings id = some e →
      ∃ u, putMeetingRoute s id p =
          ({ s with meetings := mapSet s.meetings id u }, .json u) ∧
        u.id = e.id ∧ u.userId = p.userId.getD e.userId ∧
        u.title = p.title.getD e.title ∧
        u.startTime = p.startTime.getD e.startTime ∧
        u.duration = p.duration.getD e.duration ∧
        u.color = p.color.getD e.color ∧
        u.date = p.date.getD e.date ∧
        mapGet (putMeetingRoute s id p).1.meetings id = some u) ∧
    (mapGet s.meetings id = none →
      putMeetingRoute s id p = (s, .err 404 "Meeting not found")) := by
  constructor
  · intro e he
    have hput : putMeetingRoute s id p =
        ({ s with meetings := mapSet s.meetings id (mergeMeeting e p) },
          .json (mergeMeeting e p)) := by
      unfold putMeetingRoute MemStorage.updateMeeting
      rw [he]
    refine ⟨mergeMeeting e p, hput, rfl, rfl, rfl, rfl, rfl, rfl, rfl, ?_⟩
    rw [hput]
    exact mapGet_mapSet_self _ _ _
  · intro he
    unfold putMeetingRoute MemStorage.updateMeeting
    rw [he]

/-- C7: on `POST /api/meetings`, a body failing insert-schema validation gets
status 400 with the generic message and leaves the store exactly as before; a
body passing validation creates a record whose stored value is the response
body. -/
theorem post_validates_then_stores (s : MemStorage) (b : MeetingBody) :
    (parseInsertMeeting b demoUserId = none →
      (postMeetingRoute s b).2 = .err 400 "Invalid meeting data" ∧
      (postMeetingRoute s b).1 = s) ∧
    (∀ d, parseInsertMeeting b demoUserId = some d →
      ∃ m, (postMeetingRoute s b).2 = .json m ∧
        mapGet (postMeetingRoute s b).1.meetings m.id = some m) := by
  constructor
  · intro h
    constructor
    · unfold postMeetingRoute
      rw [h]
    · unfold postMeetingRoute
      rw [h]
  · intro d h
    have hpost : postMeetingRoute s b =
        ((s.createMeeting d).1, .json (s.createMeeting d).2) := by
      unfold postMeetingRoute
      rw [h]
    refine ⟨(s.createMeeting d).2, by rw [hpost], ?_⟩
    rw [hpost]
    exact mapGet_mapSet_self _ _ _

/-- C4: after `PUT /api/todos/:id` with body `{completed: true}` on a stored
todo of the demo user, `GET /api/todos` includes a record with that id whose
`completed` is `true` and whose every other field equals its previous value;
every other todo in the store is unchanged. -/
theorem putCompleted_updates_only_completed (s : MemStorage) (id : Nat) (t : Todo)
    (hget : mapGet s.todos id = some t) (hid : t.id = id)
    (huser : t.userId = demoUserId) :
    ∃ u : Todo,
      (putTodoRoute s id TodoPatch.completedTrue).2 = .json u ∧
      getTodosRoute (putTodoRoute s id TodoPatch.completedTrue).1 =
        .json ((putTodoRoute s id TodoPatch.completedTrue).1.getTodosByUser demoUserId) ∧
      u ∈ (putTodoRoute s id TodoPatch.completedTrue).1.getTodosByUser demoUserId ∧
      u.id = id ∧ u.completed = some true ∧
      u.title = t.title ∧ u.description = t.description ∧ u.priority = t.priority ∧
      u.estimatedDuration = t.estimatedDuration ∧ u.projectId = t.projectId ∧
      u.dueDate = t.dueDate ∧ u.userId = t.userId ∧ u.createdAt = t.createdAt ∧
      (∀ j, j ≠ id →
        mapGet (putTodoRoute s id TodoPatch.completedTrue).1.todos j =
          mapGet s.todos j) := by
  have hput : putTodoRoute s id TodoPatch.completedTrue =
      ({ s with todos := mapSet s.todos id (mergeTodo t TodoPatch.completedTrue) },
        .json (mergeTodo t TodoPatch.completedTrue)) := by
    unfold putTodoRoute MemStorage.updateTodo
    rw [hget]
  refine ⟨mergeTodo t TodoPatch.completedTrue, by rw [hput], rfl, ?_,
    hid ▸ rfl, rfl, rfl, rfl, rfl, rfl, rfl, rfl, rfl, rfl, ?_⟩
  · rw [hput]
    apply List.mem_filter.mpr
    constructor
    · exact mem_mapValues_of_mapGet (mapGet_mapSet_self s.todos id _)
    · show ((mergeTodo t TodoPatch.completedTrue).userId == demoUserId) = true
      simp [mergeTodo, TodoPatch.completedTrue, TodoPatch.empty, huser]
  · intro j hj
    rw [hput]
    exact mapGet_mapSet_ne s.todos id j _ hj

/-- C9: two successive `POST /api/health-scores` with the same valid body (in
particular the same `userId`, `month`, `year`) both succeed and store two
distinct records under two distinct ids; the second create does not
deduplicate against, replace or merge with the first. -/
theorem healthScore_post_never_dedups (s : MemStorage) (b : HealthScoreBody)
    (p : InsertHealthScore) (hp : parseInsertHealthScore b demoUserId = some p) :
    ∃ r1 r2 : HealthScore,
      (postHealthScoreRoute s b).2 = .json r1 ∧
      (postHealthScoreRoute (postHealthScoreRoute s b).1 b).2 = .json r2 ∧
      r1.id ≠ r2.id ∧
      r1.userId = p.userId ∧ r1.month = p.month ∧ r1.year = p.year ∧
      r2.userId = p.userId ∧ r2.month = p.month ∧ r2.year = p.year ∧
      mapGet (postHealthScoreRoute (postHealthScoreRoute s b).1 b).1.healthScores
        r1.id = some r1 ∧
      mapGet (postHealthScoreRoute (postHealthScoreRoute s b).1 b).1.healthScores
        r2.id = some r2 := by
  have h1 : postHealthScoreRoute s b =
      ((s.createHealthScore p).1, .json (s.createHealthScore p).2) := by
    unfold postHealthScoreRoute
    rw [hp]
  have h2 : postHealthScoreRoute (s.createHealthScore p).1 b =
      (((s.createHealthScore p).1.createHealthScore p).1,
        .json ((s.createHealthScore p).1.createHealthScore p).2) := by
    unfold postHealthScoreRoute
    rw [hp]
  refine ⟨(s.createHealthScore p).2, ((s.createHealthScore p).1.createHealthScore p).2,
    by rw [h1], by rw [h1, h2], ?_, rfl, rfl, rfl, rfl, rfl, rfl, ?_, ?_⟩
  · show s.currentId ≠ s.currentId + 1
    omega
  · rw [h1, h2]
    show mapGet (mapSet (mapSet s.healthScores s.currentId _) (s.currentId + 1) _)
      s.currentId = _
    rw [mapGet_mapSet_ne _ _ _ _ (by omega)]
    exact mapGet_mapSet_self _ _ _
  · rw [h1, h2]
    exact mapGet_mapSet_self _ _ _

/-- C10: `GET /api/health-scores/:month/:year` always answers on the success
path with status 200 (never 404); when the demo user has no stored score for
that month and year the body is `null`, and when matching scores exist the
body is the first match in store iteration order. -/
theorem getHealthScore_null_or_first (s : MemStorage) (month year : Int) :
    (getHealthScoreRoute s month year).status = 200 ∧
    (getHealthScoreRoute s month year).status ≠ 404 ∧
    ((∀ h ∈ mapValues s.healthScores,
        ¬(h.userId = demoUserId ∧ h.month = month ∧ h.year = year)) →
      getHealthScoreRoute s month year = .json none) ∧
    (∀ l1 h l2, mapValues s.healthScores = l1 ++ h :: l2 →
      (∀ h2 ∈ l1, ¬(h2.userId = demoUserId ∧ h2.month = month ∧ h2.year = year)) →
      h.userId = demoUserId → h.month = month → h.year = year →
      getHealthScoreRoute s month year = .json (some h)) := by
  refine ⟨rfl, by simp [getHealthScoreRoute, ApiResult.status], ?_, ?_⟩
  · intro hnone
    unfold getHealthScoreRoute MemStorage.getHealthScoreByUserAndMonth
    rw [List.find?_eq_none.mpr]
    intro x hx
    have := hnone x hx
    simp only [Bool.and_eq_true, beq_iff_eq]
    tauto
  · intro l1 h l2 hsplit hl1 hu hm hy
    unfold getHealthScoreRoute MemStorage.getHealthScoreByUserAndMonth
    rw [hsplit, find?_append_first]
    · intro x hx
      have := hl1 x hx
      simp only [Bool.and_eq_true, beq_iff_eq, Bool.eq_false_iff, ne_eq]
      tauto
    · simp [hu, hm, hy]

/-- C2: a drag-end whose drop target is absent, or whose drop-target id does
not match the time-slot pattern `time-HH:MM`, issues no create-scheduled-item
mutation (both handler variants return nothing) and leaves the set of
scheduled items — indeed the whole store — unchanged. -/
theorem invalid_drop_is_noop (s : MemStorage) (meetings : List Meeting)
    (todos : List Todo) (selectedDate : String) (ev : DragEndEvent)
    (h : ev.overId = none ∨ ∃ z, ev.overId = some z ∧ timeSlotMatch z = none) :
    handleDragEnd meetings todos selectedDate ev = none ∧
    handleDragEndAlt meetings todos selectedDate ev = none ∧
    dragEndEffect s meetings todos selectedDate ev = s ∧
    dragEndEffectAlt s meetings todos selectedDate ev = s := by
  have h1 : handleDragEnd meetings todos selectedDate ev = none := by
    rcases h with h | ⟨z, hz, hm⟩
    · unfold handleDragEnd
      simp only [h]
    · unfold handleDragEnd
      simp only [hz, hm]
  have h2 : handleDragEndAlt meetings todos selectedDate ev = none := by
    rcases h with h | ⟨z, hz, hm⟩
    · unfold handleDragEndAlt
      simp only [h]
    · unfold handleDragEndAlt
      simp only [hz, hm]
  refine ⟨h1, h2, ?_, ?_⟩
  · unfold dragEndEffect
    simp only [h1]
  · unfold dragEndEffectAlt
    simp only [h2]

/-- C1: dragging a stored todo with `estimatedDuration = 45` (dragged id
`todo-<id>`) onto the drop target `time-10:00` issues a create-scheduled-item
mutation whose payload has `startTime = "10:00"`, `duration = 45`,
`type = "todo"` and `originalId` the todo's id — in both handler variants —
and the record returned (and stored) by the scheduled-item create carries the
same field values. -/
theorem dragTodo45_schedules_at_1000 (s : MemStorage) (meetings : List Meeting)
    (todos : List Todo) (t : Todo) (selectedDate : String)
    (hmem : t ∈ todos) (hids : (todos.map Todo.id).Nodup)
    (hdur : t.estimatedDuration = some 45) :
    ∃ (b : ScheduledItemBody) (r : ScheduledItem),
      handleDragEnd meetings todos selectedDate
        { activeId := todoKey t.id, overId := some "time-10:00" } = some b ∧
      b.startTime = "10:00" ∧ b.duration = 45 ∧ b.type = "todo" ∧
      b.originalId = some t.id ∧
      (postScheduledItemRoute s b).2 = .json r ∧
      r.startTime = "10:00" ∧ r.duration = 45 ∧ r.type = "todo" ∧
      r.originalId = some t.id ∧
      mapGet (postScheduledItemRoute s b).1.scheduledItems r.id = some r ∧
      (∃ b2 : ScheduledItemBody,
        handleDragEndAlt meetings todos selectedDate
          { activeId := todoKey t.id, overId := some "time-10:00" } = some b2 ∧
        b2.startTime = "10:00" ∧ b2.duration = 45 ∧ b2.type = "todo" ∧
        b2.originalId = some t.id) := by
  have hslot : timeSlotMatch "time-10:00" = some "10:00" := by decide
  have hmeet : meetings.find? (fun m => meetingKey m.id == todoKey t.id) = none :=
    List.find?_eq_none.mpr fun m _ => by simp [meetingKey_ne_todoKey]
  have htodo : todos.find? (fun t2 => todoKey t2.id == todoKey t.id) = some t := by
    apply find?_eq_some_of_unique hmem (by simp)
    intro b hb hpb
    exact List.inj_on_of_nodup_map hids hb hmem (todoKey_inj (by simpa using hpb))
  have hdur45 : jsOrInt t.estimatedDuration 30 = 45 := by
    rw [hdur]
    norm_num [jsOrInt]
  have hdur45a : jsOrInt t.estimatedDuration 60 = 45 := by
    rw [hdur]
    norm_num [jsOrInt]
  have hmain : handleDragEnd meetings todos selectedDate
      { activeId := todoKey t.id, overId := some "time-10:00" } =
      some { title := t.title, startTime := "10:00", duration := 45,
             date := selectedDate, type := "todo", originalId := some t.id,
             color := some "#7C3AED" } := by
    unfold handleDragEnd
    simp only [hslot, hmeet, htodo, hdur45]
  have halt : handleDragEndAlt meetings todos selectedDate
      { activeId := todoKey t.id, overId := some "time-10:00" } =
      some { title := t.title, startTime := "10:00", duration := 45,
             date := selectedDate, type := "todo", originalId := some t.id,
             color := none } := by
    unfold handleDragEndAlt
    simp only [hslot, hmeet, htodo, hdur45a]
  refine ⟨_, _, hmain, rfl, rfl, rfl, rfl, rfl, rfl, rfl, rfl, rfl,
    mapGet_mapSet_self _ _ _, _, halt, rfl, rfl, rfl, rfl⟩

/-! ### Witnesses: each hypothesis-bearing claim theorem applied at a
concrete input. -/

/-- Witness for C1: `sampleTodo` (estimated duration 45) dragged onto
`time-10:00` over `sampleStore`. -/
theorem dragTodo45_schedules_at_1000_witness :
    ∃ (b : ScheduledItemBody) (r : ScheduledItem),
      handleDragEnd [] [sampleTodo] "2025-06-16"
        { activeId := todoKey sampleTodo.id, overId := some "time-10:00" } = some b ∧
      b.startTime = "10:00" ∧ b.duration = 45 ∧ b.type = "todo" ∧
      b.originalId = some sampleTodo.id ∧
      (postScheduledItemRoute sampleStore b).2 = .json r ∧
      r.startTime = "10:00" ∧ r.duration = 45 ∧ r.type = "todo" ∧
      r.originalId = some sampleTodo.id ∧
      mapGet (postScheduledItemRoute sampleStore b).1.scheduledItems r.id = some r ∧
      (∃ b2 : ScheduledItemBody,
        handleDragEndAlt [] [sampleTodo] "2025-06-16"
          { activeId := todoKey sampleTodo.id, overId := some "time-10:00" } = some b2 ∧
        b2.startTime = "10:00" ∧ b2.duration = 45 ∧ b2.type = "todo" ∧
        b2.originalId = some sampleTodo.id) :=
  dragTodo45_schedules_at_1000 sampleStore [] [sampleTodo] sampleTodo "2025-06-16"
    (by decide) (by decide) (by decide)

/-- Witness for C2: a drop onto the non-slot target `"lunch"`. -/
theorem invalid_drop_is_noop_witness :
    handleDragEnd [] [sampleTodo] "2025-06-16"
      { activeId := todoKey sampleTodo.id, overId := some "lunch" } = none ∧
    handleDragEndAlt [] [sampleTodo] "2025-06-16"
      { activeId := todoKey sampleTodo.id, overId := some "lunch" } = none ∧
    dragEndEffect sampleStore [] [sampleTodo] "2025-06-16"
      { activeId := todoKey sampleTodo.id, overId := some "lunch" } = sampleStore ∧
    dragEndEffectAlt sampleStore [] [sampleTodo] "2025-06-16"
      { activeId := todoKey sampleTodo.id, overId := some "lunch" } = sampleStore :=
  invalid_drop_is_noop sampleStore [] [sampleTodo] "2025-06-16"
    { activeId := todoKey sampleTodo.id, overId := some "lunch" }
    (Or.inr ⟨"lunch", rfl, by decide⟩)

/-- Witness for C4: completing todo 7 in `sampleStore`. -/
theorem putCompleted_updates_only_completed_witness :
    ∃ u : Todo,
      (putTodoRoute sampleStore 7 TodoPatch.completedTrue).2 = .json u ∧
      getTodosRoute (putTodoRoute sampleStore 7 TodoPatch.completedTrue).1 =
        .json ((putTodoRoute sampleStore 7 TodoPatch.completedTrue).1.getTodosByUser
          demoUserId) ∧
      u ∈ (putTodoRoute sampleStore 7 TodoPatch.completedTrue).1.getTodosByUser
        demoUserId ∧
      u.id = 7 ∧ u.completed = some true ∧
      u.title = sampleTodo.title ∧ u.description = sampleTodo.description ∧
      u.priority = sampleTodo.priority ∧
      u.estimatedDuration = sampleTodo.estimatedDuration ∧
      u.projectId = sampleTodo.projectId ∧ u.dueDate = sampleTodo.dueDate ∧
      u.userId = sampleTodo.userId ∧ u.createdAt = sampleTodo.createdAt ∧
      (∀ j, j ≠ 7 →
        mapGet (putTodoRoute sampleStore 7 TodoPatch.completedTrue).1.todos j =
          mapGet sampleStore.todos j) :=
  putCompleted_updates_only_completed sampleStore 7 sampleTodo (by decide) rfl rfl

/-- Witness for C5: renaming meeting 8 succeeds with the merge; updating the
absent id 99 is a 404 that leaves the store untouched. -/
theorem update_merges_or_404_witness :
    (∃ u, putMeetingRoute sampleStore 8 renamePatch =
        ({ sampleStore with meetings := mapSet sampleStore.meetings 8 u }, .json u) ∧
      u.id = sampleMeeting.id ∧
      u.userId = renamePatch.userId.getD sampleMeeting.userId ∧
      u.title = renamePatch.title.getD sampleMeeting.title ∧
      u.startTime = renamePatch.startTime.getD sampleMeeting.startTime ∧
      u.duration = renamePatch.duration.getD sampleMeeting.duration ∧
      u.color = renamePatch.color.getD sampleMeeting.color ∧
      u.date = renamePatch.date.getD sampleMeeting.date ∧
      mapGet (putMeetingRoute sampleStore 8 renamePatch).1.meetings 8 = some u) ∧
    putMeetingRoute sampleStore 99 renamePatch =
      (sampleStore, .err 404 "Meeting not found") :=
  ⟨(update_merges_or_404 sampleStore 8 renamePatch).1 sampleMeeting (by decide),
   (update_merges_or_404 sampleStore 99 renamePatch).2 (by decide)⟩

/-- Witness for C6: deleting the absent todo id 99 from `sampleStore`. -/
theorem delete_unknown_id_404_noop_witness :
    (deleteTodoRoute sampleStore 99).2 = .err 404 "Todo not found" ∧
    (deleteTodoRoute sampleStore 99).1 = sampleStore ∧
    (deleteTodoRoute sampleStore 99).1.todos.length = sampleStore.todos.length :=
  delete_unknown_id_404_noop sampleStore 99 (by decide)

/-- Witness for C7: a body missing `title` is a 400 no-op; a complete body is
created and echoed back as the stored record. -/
theorem post_validates_then_stores_witness :
    ((postMeetingRoute MemStorage.init badMeetingBody).2 =
        .err 400 "Invalid meeting data" ∧
      (postMeetingRoute MemStorage.init badMeetingBody).1 = MemStorage.init) ∧
    (∃ m, (postMeetingRoute MemStorage.init sampleMeetingBody).2 = .json m ∧
      mapGet (postMeetingRoute MemStorage.init sampleMeetingBody).1.meetings m.id =
        some m) :=
  ⟨(post_validates_then_stores MemStorage.init badMeetingBody).1 rfl,
   (post_validates_then_stores MemStorage.init sampleMeetingBody).2
     { userId := demoUserId, title := "Standup", startTime := "09:00",
       duration := 30, color := none, date := "2025-06-16" } rfl⟩

/-- Witness for C9: posting `sampleHealthBody` twice to the fresh store. -/
theorem healthScore_post_never_dedups_witness :
    ∃ r1 r2 : HealthScore,
      (postHealthScoreRoute MemStorage.init sampleHealthBody).2 = .json r1 ∧
      (postHealthScoreRoute (postHealthScoreRoute MemStorage.init sampleHealthBody).1
        sampleHealthBody).2 = .json r2 ∧
      r1.id ≠ r2.id ∧
      r1.userId = sampleHealthInsert.userId ∧ r1.month = sampleHealthInsert.month ∧
      r1.year = sampleHealthInsert.year ∧
      r2.userId = sampleHealthInsert.userId ∧ r2.month = sampleHealthInsert.month ∧
      r2.year = sampleHealthInsert.year ∧
      mapGet (postHealthScoreRoute
          (postHealthScoreRoute MemStorage.init sampleHealthBody).1
          sampleHealthBody).1.healthScores r1.id = some r1 ∧
      mapGet (postHealthScoreRoute
          (postHealthScoreRoute MemStorage.init sampleHealthBody).1
          sampleHealthBody).1.healthScores r2.id = some r2 :=
  healthScore_post_never_dedups MemStorage.init sampleHealthBody sampleHealthInsert rfl

/-- Witness for C10: the empty store answers 200 with `null` body for 6/2025;
`sampleStore` answers 200 with its stored score. -/
theorem getHealthScore_null_or_first_witness :
    (getHealthScoreRoute MemStorage.init 6 2025).status = 200 ∧
    (getHealthScoreRoute MemStorage.init 6 2025).status ≠ 404 ∧
    getHealthScoreRoute MemStorage.init 6 2025 = .json none ∧
    getHealthScoreRoute sampleStore 6 2025 = .json (some sampleHealthScore) :=
  ⟨(getHealthScore_null_or_first MemStorage.init 6 2025).1,
   (getHealthScore_null_or_first MemStorage.init 6 2025).2.1,
   (getHealthScore_null_or_first MemStorage.init 6 2025).2.2.1 (by decide),
   (getHealthScore_null_or_first sampleStore 6 2025).2.2.2 [] sampleHealthScore []
     rfl (by simp) rfl rfl rfl⟩

end TaskMaster
